import Mathlib

/-!
Shallow embedding of the extraction engine in `src/extract_places.py` of the
`nouakchott-places` repository, together with theorems checking the design
document's claims about it.

Conventions of the embedding:
* Python `float` values are modelled as `ℚ` (the source only adds, subtracts,
  multiplies and divides decimal literals, so rationals are exact).
* Python `int` is modelled as `ℤ` where negative values are reachable and as
  `ℕ` for counters that only ever grow from zero.
* Python `dict` (insertion ordered) is modelled as an association list
  `List (String × Place)`; Python `set` as `Finset String`.
* A raised `ZeroDivisionError` is modelled with `Except String`.
* Calls to `logger.warning` / `logger.error` that matter to the claims are
  recorded as `LogEvent` values in the state; calls to `time.sleep` are
  recorded as `SleepEvent` values (tagged with the source line that sleeps).
* The remote Places API is an oracle `ℕ → ApiOutcome` indexed by the number
  of API calls made so far (`total_api_calls`); `ApiOutcome.raise` models the
  client library raising an exception, `ApiOutcome.respond` a returned JSON
  response in which every field access may be absent (`Option`).
* The unbounded pagination `while True` loop receives a fuel parameter; all
  functions are total and return `none` only on fuel exhaustion.
-/

/-- Place dataclass of `extract_places.py` (lines 186-203). -/
structure Place where
  place_id : String
  name : String
  types : List String
  latitude : ℚ
  longitude : ℚ
  deriving DecidableEq, Repr

/-- GridCell dataclass (lines 206-212). -/
structure GridCell where
  row : ℤ
  col : ℤ
  center_lat : ℚ
  center_lng : ℚ
  deriving DecidableEq, Repr

/-- Checkpoint dataclass (lines 215-222). -/
structure Checkpoint where
  last_completed_cell_index : ℤ
  total_unique_places : ℕ
  total_api_calls : ℕ
  total_duplicates_skipped : ℕ
  timestamp : String
  deriving DecidableEq, Repr

/-- Config dataclass (lines 58-148); only the fields the engine reads. -/
structure Config where
  BBOX_NORTH : ℚ
  BBOX_SOUTH : ℚ
  BBOX_EAST : ℚ
  BBOX_WEST : ℚ
  GRID_LAT_DIVISIONS : ℤ
  GRID_LNG_DIVISIONS : ℤ
  SEARCH_RADIUS_METERS : ℤ
  PLACE_TYPES : List String
  INCLUDE_GENERIC_SEARCH : Bool
  DELAY_BETWEEN_REQUESTS_SECONDS : ℚ
  PAGINATION_DELAY_SECONDS : ℚ
  MAX_RETRIES : ℕ
  INITIAL_RETRY_DELAY_SECONDS : ℚ
  ENABLE_CHECKPOINTING : Bool
  CHECKPOINT_INTERVAL : ℕ
  deriving DecidableEq, Repr

/-- Default values of the Config dataclass (the source file's literals). -/
def Config.default : Config where
  BBOX_NORTH := 18.15
  BBOX_SOUTH := 17.95
  BBOX_EAST := -15.85
  BBOX_WEST := -16.10
  GRID_LAT_DIVISIONS := 10
  GRID_LNG_DIVISIONS := 10
  SEARCH_RADIUS_METERS := 1000
  PLACE_TYPES := ["restaurant", "cafe", "bar", "food", "lodging", "hotel",
    "mosque", "school", "university", "library", "hospital", "pharmacy",
    "doctor", "dentist", "bank", "atm", "store", "supermarket",
    "shopping_mall", "gas_station", "car_repair", "bus_station",
    "taxi_stand", "airport", "laundry", "beauty_salon", "hair_care", "spa",
    "gym", "stadium", "park", "movie_theater", "night_club", "casino",
    "travel_agency", "real_estate_agency", "lawyer", "accountant",
    "insurance_agency", "post_office", "courthouse", "embassy", "police",
    "fire_station", "local_government_office", "bakery",
    "electronics_store", "furniture_store", "hardware_store",
    "home_goods_store", "clothing_store", "shoe_store", "jewelry_store",
    "book_store", "florist", "pet_store", "car_dealer", "car_rental",
    "car_wash", "parking", "church", "hindu_temple", "synagogue", "museum",
    "art_gallery", "aquarium", "zoo", "veterinary_care", "plumber",
    "electrician", "locksmith", "roofing_contractor", "painter",
    "moving_company", "storage", "finance", "accounting",
    "point_of_interest", "establishment", "cemetery", "funeral_home",
    "campground", "rv_park", "tourist_attraction", "amusement_park"]
  INCLUDE_GENERIC_SEARCH := true
  DELAY_BETWEEN_REQUESTS_SECONDS := 0.5
  PAGINATION_DELAY_SECONDS := 2.5
  MAX_RETRIES := 5
  INITIAL_RETRY_DELAY_SECONDS := 1.0
  ENABLE_CHECKPOINTING := true
  CHECKPOINT_INTERVAL := 10

/-- Python `range(n)` for an `int` argument: empty when `n ≤ 0`. -/
def pyRange (n : ℤ) : List ℤ :=
  (List.range n.toNat).map Int.ofNat

/-- Translation of `generate_grid` (lines 229-252).  Python evaluates
`lat_step = (north - south) / divisions` before the loops, so a zero
division count raises `ZeroDivisionError`; the error is modelled with
`Except.error`.  The two nested `for` loops appending to `cells` are the
`flatMap`/`map` below. -/
def generate_grid (config : Config) : Except String (List GridCell) :=
  if config.GRID_LAT_DIVISIONS = 0 then Except.error "ZeroDivisionError"
  else if config.GRID_LNG_DIVISIONS = 0 then Except.error "ZeroDivisionError"
  else
    Except.ok <|
      (pyRange config.GRID_LAT_DIVISIONS).flatMap fun row =>
        (pyRange config.GRID_LNG_DIVISIONS).map fun col =>
          { row := row
            col := col
            center_lat := config.BBOX_SOUTH +
              ((row : ℚ) + 0.5) *
                ((config.BBOX_NORTH - config.BBOX_SOUTH) /
                  (config.GRID_LAT_DIVISIONS : ℚ))
            center_lng := config.BBOX_WEST +
              ((col : ℚ) + 0.5) *
                ((config.BBOX_EAST - config.BBOX_WEST) /
                  (config.GRID_LNG_DIVISIONS : ℚ)) }

/-- Length of a row-major double iteration. -/
theorem flatMap_range_map_length {α : Type} (R C : ℕ) (f : ℕ → ℕ → α) :
    ((List.range R).flatMap fun r => (List.range C).map (f r)).length = R * C := by
  induction R with
  | zero => simp
  | succ n ih =>
    rw [List.range_succ, List.flatMap_append, List.length_append, ih]
    simp [Nat.succ_mul]

/-- Row-major indexing of a double iteration: entry `r * C + c` is `f r c`. -/
theorem flatMap_range_map_get {α : Type} (R C r c : ℕ) (f : ℕ → ℕ → α)
    (hr : r < R) (hc : c < C) :
    ((List.range R).flatMap fun i => (List.range C).map (f i))[r * C + c]? =
      some (f r c) := by
  induction R with
  | zero => omega
  | succ n ih =>
    rw [List.range_succ, List.flatMap_append]
    rcases Nat.lt_succ_iff_lt_or_eq.mp hr with h | h
    · rw [List.getElem?_append_left]
      · exact ih h
      · calc r * C + c < r * C + C := by omega
          _ = (r + 1) * C := by ring
          _ ≤ n * C := Nat.mul_le_mul_right C h
          _ = _ := (flatMap_range_map_length n C f).symm
    · subst h
      rw [List.getElem?_append_right]
      · rw [flatMap_range_map_length]
        simp only [List.flatMap_singleton, Nat.add_sub_cancel_left,
          Nat.sub_self]
        rw [List.getElem?_map, List.getElem?_range hc]
        rfl
      · rw [flatMap_range_map_length]
        omega

/-- Center formula used by `generate_grid` for cell `(r, c)`, with the
indices cast from the loop counters. -/
def gridCellOf (config : Config) (r c : ℕ) : GridCell where
  row := (r : ℤ)
  col := (c : ℤ)
  center_lat := config.BBOX_SOUTH +
    ((r : ℚ) + 0.5) *
      ((config.BBOX_NORTH - config.BBOX_SOUTH) /
        (config.GRID_LAT_DIVISIONS : ℚ))
  center_lng := config.BBOX_WEST +
    ((c : ℚ) + 0.5) *
      ((config.BBOX_EAST - config.BBOX_WEST) /
        (config.GRID_LNG_DIVISIONS : ℚ))

/-- Normal form of `generate_grid` when neither division count is zero. -/
theorem generate_grid_ok (config : Config)
    (h1 : ¬ config.GRID_LAT_DIVISIONS = 0)
    (h2 : ¬ config.GRID_LNG_DIVISIONS = 0) :
    generate_grid config = Except.ok
      ((List.range config.GRID_LAT_DIVISIONS.toNat).flatMap fun r =>
        (List.range config.GRID_LNG_DIVISIONS.toNat).map fun c =>
          gridCellOf config r c) := by
  rw [generate_grid, if_neg h1, if_neg h2]
  congr 1
  simp only [pyRange]
  rw [List.flatMap_map]
  congr 1
  funext r
  rw [List.map_map]
  congr 1

/-- C4: for positive division counts, the grid has exactly rows × columns
cells in row-major order, and cell `(r, c)` has center latitude
`south + (r + 0.5) * latStep` and center longitude
`west + (c + 0.5) * lngStep` with the steps computed from the bounding box. -/
theorem generate_grid_row_major (config : Config)
    (hR : 0 < config.GRID_LAT_DIVISIONS)
    (hC : 0 < config.GRID_LNG_DIVISIONS) :
    ∃ cells, generate_grid config = Except.ok cells ∧
      cells.length =
        config.GRID_LAT_DIVISIONS.toNat * config.GRID_LNG_DIVISIONS.toNat ∧
      ∀ r c : ℕ, r < config.GRID_LAT_DIVISIONS.toNat →
        c < config.GRID_LNG_DIVISIONS.toNat →
        cells[r * config.GRID_LNG_DIVISIONS.toNat + c]? =
          some (gridCellOf config r c) := by
  refine ⟨_, generate_grid_ok config (by omega) (by omega), ?_, ?_⟩
  · exact flatMap_range_map_length _ _ _
  · intro r c hr hc
    exact flatMap_range_map_get _ _ r c _ hr hc

/-- C4 witness: the default configuration (10 × 10 divisions). -/
theorem generate_grid_row_major_witness :
    ∃ cells, generate_grid Config.default = Except.ok cells ∧
      cells.length =
        Config.default.GRID_LAT_DIVISIONS.toNat *
          Config.default.GRID_LNG_DIVISIONS.toNat ∧
      ∀ r c : ℕ, r < Config.default.GRID_LAT_DIVISIONS.toNat →
        c < Config.default.GRID_LNG_DIVISIONS.toNat →
        cells[r * Config.default.GRID_LNG_DIVISIONS.toNat + c]? =
          some (gridCellOf Config.default r c) :=
  generate_grid_row_major Config.default (by decide) (by decide)

/-- C5 counterexample: with a zero latitude division count the code raises
`ZeroDivisionError` (the step is computed by division before the loops), so
no empty sequence is returned. -/
theorem generate_grid_zero_division_raises :
    generate_grid { Config.default with GRID_LAT_DIVISIONS := 0 } =
      Except.error "ZeroDivisionError" ∧
    ∀ cells,
      generate_grid { Config.default with GRID_LAT_DIVISIONS := 0 } ≠
        Except.ok cells := by
  refine ⟨rfl, ?_⟩
  intro cells h
  rw [show generate_grid { Config.default with GRID_LAT_DIVISIONS := 0 } =
    Except.error "ZeroDivisionError" from rfl] at h
  cases h

/-- C5 amended: a division count of zero raises `ZeroDivisionError`; when
both counts are nonzero and at least one is negative, the generator returns
an empty sequence and raises no error. -/
theorem generate_grid_degenerate (config : Config) :
    (config.GRID_LAT_DIVISIONS = 0 ∨ config.GRID_LNG_DIVISIONS = 0 →
      generate_grid config = Except.error "ZeroDivisionError") ∧
    (config.GRID_LAT_DIVISIONS ≠ 0 → config.GRID_LNG_DIVISIONS ≠ 0 →
      config.GRID_LAT_DIVISIONS < 0 ∨ config.GRID_LNG_DIVISIONS < 0 →
      generate_grid config = Except.ok []) := by
  constructor
  · intro h
    rw [generate_grid]
    rcases h with h | h
    · rw [if_pos h]
    · by_cases h1 : config.GRID_LAT_DIVISIONS = 0
      · rw [if_pos h1]
      · rw [if_neg h1, if_pos h]
  · intro h1 h2 hneg
    rw [generate_grid_ok config h1 h2]
    rcases hneg with h | h
    · have hz : config.GRID_LAT_DIVISIONS.toNat = 0 := by omega
      rw [hz]
      rfl
    · have hz : config.GRID_LNG_DIVISIONS.toNat = 0 := by omega
      rw [hz]
      simp

/-- C5 amended witness: zero rows raise; negative rows yield the empty
grid. -/
theorem generate_grid_degenerate_witness :
    generate_grid { Config.default with GRID_LAT_DIVISIONS := 0 } =
      Except.error "ZeroDivisionError" ∧
    generate_grid { Config.default with GRID_LAT_DIVISIONS := -2 } =
      Except.ok [] :=
  ⟨(generate_grid_degenerate
      { Config.default with GRID_LAT_DIVISIONS := 0 }).1 (Or.inl rfl),
   (generate_grid_degenerate
      { Config.default with GRID_LAT_DIVISIONS := -2 }).2
      (by decide) (by decide) (Or.inl (by decide))⟩

/-- Log records emitted by the engine at the `logger.warning` /
`logger.error` calls that the claims talk about. -/
inductive LogEvent where
  | apiStatusWarning (status : Option String)
  | apiErrorWarning
  | maxRetriesError
  | missingPlaceIdWarning
  | checkpointLoadError
  deriving DecidableEq, Repr, BEq

/-- Record of one `time.sleep` call, tagged with the site that slept:
`pagination` is line 333, `rateLimit` lines 339 and 435, `backoff` line
355.  The payload is the slept duration in seconds. -/
inductive SleepEvent where
  | pagination (seconds : ℚ)
  | rateLimit (seconds : ℚ)
  | backoff (seconds : ℚ)
  deriving DecidableEq, Repr

/-- Value of the `geometry.location` sub-dictionary of a raw API result;
each key may be absent. -/
structure RawLocation where
  lat : Option ℚ
  lng : Option ℚ
  deriving DecidableEq, Repr

/-- Value of the `geometry` sub-dictionary of a raw API result. -/
structure RawGeometry where
  location : Option RawLocation
  deriving DecidableEq, Repr

/-- Raw place result dictionary as returned by the API; every key access in
`process_result` uses `.get`, so every field is optional. -/
structure RawResult where
  place_id : Option String
  name : Option String
  types : Option (List String)
  geometry : Option RawGeometry
  deriving DecidableEq, Repr

/-- Mutable state of a `PlacesExtractor` instance (lines 262-274), plus the
observation traces (`log`, `sleeps`) of the run so far.  The Python set
`seen_place_ids` is modelled as a duplicate-free list: only membership is
ever observed, and the unspecified iteration order of `list(set)` is
determinized to insertion order. -/
structure ExtractorState where
  seen_place_ids : List String
  places : List (String × Place)
  total_api_calls : ℕ
  total_duplicates_skipped : ℕ
  current_cell_index : ℤ
  log : List LogEvent
  sleeps : List SleepEvent
  deriving DecidableEq

/-- State built by `PlacesExtractor.__init__`. -/
def init_state : ExtractorState where
  seen_place_ids := []
  places := []
  total_api_calls := 0
  total_duplicates_skipped := 0
  current_cell_index := 0
  log := []
  sleeps := []

/-- Python dictionary assignment `d[k] = v` on an insertion-ordered
association list: update in place when the key exists, append otherwise. -/
def dictInsert (d : List (String × Place)) (k : String) (v : Place) :
    List (String × Place) :=
  if d.any (fun p => p.1 == k) then
    d.map fun p => if p.1 == k then (k, v) else p
  else d ++ [(k, v)]

/-- Python dictionary lookup `d[k]` as an `Option`. -/
def dictLookup (d : List (String × Place)) (k : String) : Option Place :=
  (d.find? fun p => p.1 == k).map Prod.snd

/-- Place built by `process_result` (lines 379-395) from a raw result: each
field falls back to the `.get` default when absent, and a missing geometry
yields the `(0, 0)` sentinel coordinates. -/
def extractPlace (pid : String) (result : RawResult) : Place where
  place_id := pid
  name := result.name.getD ""
  types := result.types.getD []
  latitude :=
    (((result.geometry.getD ⟨none⟩).location).getD ⟨none, none⟩).lat.getD 0
  longitude :=
    (((result.geometry.getD ⟨none⟩).location).getD ⟨none, none⟩).lng.getD 0

/-- Translation of `PlacesExtractor.process_result` (lines 363-399).
Python tests `if not place_id`, which is true both for a missing key and
for an empty string; the code then only logs a warning and returns. -/
def process_result (st : ExtractorState) (result : RawResult) :
    ExtractorState :=
  match result.place_id with
  | none => { st with log := st.log ++ [LogEvent.missingPlaceIdWarning] }
  | some pid =>
    if pid = "" then
      { st with log := st.log ++ [LogEvent.missingPlaceIdWarning] }
    else if pid ∈ st.seen_place_ids then
      { st with total_duplicates_skipped := st.total_duplicates_skipped + 1 }
    else
      { st with
          seen_place_ids := st.seen_place_ids ++ [pid]
          places := dictInsert st.places pid (extractPlace pid result) }

/-- Assignment of a fresh key appends the pair to the dictionary. -/
theorem dictInsert_not_mem (d : List (String × Place)) (k : String)
    (v : Place) (h : k ∉ d.map Prod.fst) : dictInsert d k v = d ++ [(k, v)] := by
  rw [dictInsert, if_neg]
  simp only [List.any_eq_true, beq_iff_eq, not_exists, not_and]
  intro p hp hpk
  exact h (hpk ▸ List.mem_map_of_mem Prod.fst hp)

/-- Looking up a key that only occurs in the appended final pair. -/
theorem dictLookup_append_self (d : List (String × Place)) (k : String)
    (v : Place) (h : k ∉ d.map Prod.fst) :
    dictLookup (d ++ [(k, v)]) k = some v := by
  rw [dictLookup, List.find?_append]
  have hd : d.find? (fun p => p.1 == k) = none := by
    rw [List.find?_eq_none]
    intro p hp hpk
    exact h ((beq_iff_eq.mp hpk) ▸ List.mem_map_of_mem Prod.fst hp)
  rw [hd]
  simp

/-- Appending a fresh key gives exactly one entry under that key. -/
theorem filter_key_append_self (d : List (String × Place)) (k : String)
    (v : Place) (h : k ∉ d.map Prod.fst) :
    ((d ++ [(k, v)]).filter fun p => p.1 == k).length = 1 := by
  rw [List.filter_append]
  have hd : d.filter (fun p => p.1 == k) = [] := by
    rw [List.filter_eq_nil_iff]
    intro p hp hpk
    exact h ((beq_iff_eq.mp hpk) ▸ List.mem_map_of_mem Prod.fst hp)
  rw [hd]
  simp

/-- Ingesting any number of records with an already-seen id only increments
the duplicate counter, once per record. -/
theorem foldl_process_result_dup (pid : String) (hpid : pid ≠ "")
    (rs : List RawResult) (hrs : ∀ r ∈ rs, r.place_id = some pid) :
    ∀ st : ExtractorState, pid ∈ st.seen_place_ids →
      rs.foldl process_result st =
        { st with total_duplicates_skipped :=
            st.total_duplicates_skipped + rs.length } := by
  induction rs with
  | nil => intro st _; simp
  | cons r rest ih =>
    intro st hseen
    have hr : r.place_id = some pid := hrs r (List.mem_cons_self r rest)
    have hstep : process_result st r =
        { st with total_duplicates_skipped :=
            st.total_duplicates_skipped + 1 } := by
      simp [process_result, hr, hpid, hseen]
    rw [List.foldl_cons, hstep,
      ih (fun x hx => hrs x (List.mem_cons_of_mem r hx))
        { st with total_duplicates_skipped :=
            st.total_duplicates_skipped + 1 } hseen]
    simp [Nat.add_assoc, Nat.add_comm 1 rest.length]

/-- C3: a record with a fresh id is stored once, with the Place captured at
the first ingestion; every later ingestion of a record with the same id is
discarded (the stored Place, the dictionary and the seen set are unchanged)
and increments the duplicate counter by exactly one. -/
theorem process_result_first_writer_wins (st : ExtractorState)
    (r : RawResult) (pid : String) (rs : List RawResult)
    (hr : r.place_id = some pid) (hpid : pid ≠ "")
    (hseen : pid ∉ st.seen_place_ids)
    (hkey : pid ∉ st.places.map Prod.fst)
    (hrs : ∀ x ∈ rs, x.place_id = some pid) :
    (rs.foldl process_result (process_result st r)).places =
        st.places ++ [(pid, extractPlace pid r)] ∧
    dictLookup (rs.foldl process_result (process_result st r)).places pid =
        some (extractPlace pid r) ∧
    ((rs.foldl process_result (process_result st r)).places.filter
        fun p => p.1 == pid).length = 1 ∧
    (rs.foldl process_result (process_result st r)).total_duplicates_skipped
        = st.total_duplicates_skipped + rs.length ∧
    (rs.foldl process_result (process_result st r)).seen_place_ids =
        st.seen_place_ids ++ [pid] := by
  have hstep : process_result st r =
      { st with
          seen_place_ids := st.seen_place_ids ++ [pid]
          places := st.places ++ [(pid, extractPlace pid r)] } := by
    simp [process_result, hr, hpid, hseen, dictInsert_not_mem _ _ _ hkey]
  rw [hstep, foldl_process_result_dup pid hpid rs hrs _
    (List.mem_append_right st.seen_place_ids (List.mem_singleton_self pid))]
  exact ⟨rfl, dictLookup_append_self _ _ _ hkey,
    filter_key_append_self _ _ _ hkey, rfl, rfl⟩

/-- C3 witness: ingesting the same record three times into a fresh
collector stores it once and counts two duplicates. -/
theorem process_result_first_writer_wins_witness :
    (([⟨some "a", some "Cafe A", some ["cafe"], none⟩,
       ⟨some "a", some "Cafe A", some ["cafe"], none⟩] :
          List RawResult).foldl process_result
      (process_result init_state
        ⟨some "a", some "Cafe A", some ["cafe"], none⟩)).places =
        init_state.places ++
          [("a", extractPlace "a" ⟨some "a", some "Cafe A", some ["cafe"], none⟩)] ∧
    dictLookup (([⟨some "a", some "Cafe A", some ["cafe"], none⟩,
       ⟨some "a", some "Cafe A", some ["cafe"], none⟩] :
          List RawResult).foldl process_result
      (process_result init_state
        ⟨some "a", some "Cafe A", some ["cafe"], none⟩)).places "a" =
        some (extractPlace "a" ⟨some "a", some "Cafe A", some ["cafe"], none⟩) ∧
    ((([⟨some "a", some "Cafe A", some ["cafe"], none⟩,
       ⟨some "a", some "Cafe A", some ["cafe"], none⟩] :
          List RawResult).foldl process_result
      (process_result init_state
        ⟨some "a", some "Cafe A", some ["cafe"], none⟩)).places.filter
        fun p => p.1 == "a").length = 1 ∧
    (([⟨some "a", some "Cafe A", some ["cafe"], none⟩,
       ⟨some "a", some "Cafe A", some ["cafe"], none⟩] :
          List RawResult).foldl process_result
      (process_result init_state
        ⟨some "a", some "Cafe A", some ["cafe"], none⟩)).total_duplicates_skipped
        = init_state.total_duplicates_skipped + 2 ∧
    (([⟨some "a", some "Cafe A", some ["cafe"], none⟩,
       ⟨some "a", some "Cafe A", some ["cafe"], none⟩] :
          List RawResult).foldl process_result
      (process_result init_state
        ⟨some "a", some "Cafe A", some ["cafe"], none⟩)).seen_place_ids =
        init_state.seen_place_ids ++ ["a"] :=
  process_result_first_writer_wins init_state
    ⟨some "a", some "Cafe A", some ["cafe"], none⟩ "a"
    [⟨some "a", some "Cafe A", some ["cafe"], none⟩,
     ⟨some "a", some "Cafe A", some ["cafe"], none⟩]
    rfl (by decide) (by decide) (by decide) (by decide)

/-- C9: a result whose `place_id` key is missing is dropped: the Place
collection and the seen-id set are unchanged, the duplicate counter does
not move, and the only effect is one malformed-record warning in the log
(the embedding is a total function, so no exception is raised). -/
theorem process_result_missing_id (st : ExtractorState)
    (name : Option String) (types : Option (List String))
    (geometry : Option RawGeometry) :
    process_result st ⟨none, name, types, geometry⟩ =
      { st with log := st.log ++ [LogEvent.missingPlaceIdWarning] } ∧
    (process_result st ⟨none, name, types, geometry⟩).places = st.places ∧
    (process_result st ⟨none, name, types, geometry⟩).seen_place_ids =
      st.seen_place_ids ∧
    (process_result st ⟨none, name, types, geometry⟩).total_duplicates_skipped
      = st.total_duplicates_skipped ∧
    (process_result st ⟨none, name, types, geometry⟩).log.count
        LogEvent.missingPlaceIdWarning =
      st.log.count LogEvent.missingPlaceIdWarning + 1 := by
  refine ⟨rfl, rfl, rfl, rfl, ?_⟩
  simp [process_result, List.count_cons]
  rfl

/-- Response dictionary of `gmaps.places_nearby`; every key access in the
source uses `.get`, so every field is optional. -/
structure ApiResponse where
  status : Option String
  results : Option (List RawResult)
  next_page_token : Option String
  deriving DecidableEq, Repr

/-- Outcome of one remote call: either the client raises an exception
(transport failure) or it returns a response dictionary. -/
inductive ApiOutcome where
  | raise : ApiOutcome
  | respond (response : ApiResponse) : ApiOutcome
  deriving DecidableEq, Repr

/-- Truthiness of an optional string, as tested by `if next_page_token:`
(absent and empty are both falsy). -/
def optTruthy : Option String → Bool
  | none => false
  | some s => !(s == "")

/-- Local variables of one `search_with_retry` call that outlive the retry
loop: the extractor state and the `all_results` accumulator. -/
structure RetryState where
  st : ExtractorState
  all_results : List RawResult
  deriving DecidableEq

/-- Exit of the inner retry loop of `search_with_retry`: either retries
were exhausted (the `return all_results` on line 352) or a page was
fetched and the loop was left by `break` carrying the next-page token. -/
inductive RetryOutcome where
  | earlyReturn : RetryOutcome
  | pageOk (token : Option String) : RetryOutcome
  deriving DecidableEq, Repr

/-- Inner `while retry_count < MAX_RETRIES` loop of `search_with_retry`
(lines 294-356).  The first argument of the recursion is
`MAX_RETRIES - retry_count`.  On a response, a non-`OK` /
non-`ZERO_RESULTS` status is only logged (lines 313-317); the results are
appended and, when a truthy token is present, the code sleeps the
pagination delay (line 333) and the inter-request delay (line 339) before
breaking out; with no truthy token it breaks immediately.  On an
exception, the attempt counter grows, and either retries are exhausted
(log error, early return, line 352) or the code sleeps the backoff delay
and doubles it (lines 355-356). -/
def retry_loop (config : Config) (api : ℕ → ApiOutcome)
    (token_in : Option String) :
    ℕ → ℚ → RetryState → RetryOutcome × RetryState
  | 0, _, rs => (RetryOutcome.pageOk token_in, rs)
  | n + 1, delay, rs =>
    let k := rs.st.total_api_calls
    let rs1 : RetryState :=
      { rs with st := { rs.st with total_api_calls := k + 1 } }
    match api k with
    | ApiOutcome.respond response =>
      let rs2 : RetryState :=
        if response.status ≠ some "OK" ∧ response.status ≠ some "ZERO_RESULTS"
        then { rs1 with st := { rs1.st with log := rs1.st.log ++
                [LogEvent.apiStatusWarning response.status] } }
        else rs1
      let rs3 : RetryState :=
        { rs2 with all_results := rs2.all_results ++ response.results.getD [] }
      let token := response.next_page_token
      if optTruthy token then
        (RetryOutcome.pageOk token,
          { rs3 with st := { rs3.st with sleeps := rs3.st.sleeps ++
              [SleepEvent.pagination config.PAGINATION_DELAY_SECONDS,
               SleepEvent.rateLimit config.DELAY_BETWEEN_REQUESTS_SECONDS] } })
      else
        (RetryOutcome.pageOk token, rs3)
    | ApiOutcome.raise =>
      let rs2 : RetryState :=
        { rs1 with st := { rs1.st with log := rs1.st.log ++
            [LogEvent.apiErrorWarning] } }
      if n = 0 then
        (RetryOutcome.earlyReturn,
          { rs2 with st := { rs2.st with log := rs2.st.log ++
              [LogEvent.maxRetriesError] } })
      else
        retry_loop config api token_in n (delay * 2)
          { rs2 with st := { rs2.st with sleeps := rs2.st.sleeps ++
              [SleepEvent.backoff delay] } }

/-- Outer `while True` pagination loop of `search_with_retry` (lines
290-359), with fuel for the unbounded iteration.  After each page the code
breaks out when the token is not truthy (line 358). -/
def page_loop (config : Config) (api : ℕ → ApiOutcome) :
    ℕ → Option String → RetryState → Option (List RawResult × ExtractorState)
  | 0, _, _ => none
  | fuel + 1, token, rs =>
    match retry_loop config api token config.MAX_RETRIES
        config.INITIAL_RETRY_DELAY_SECONDS rs with
    | (RetryOutcome.earlyReturn, rs1) => some (rs1.all_results, rs1.st)
    | (RetryOutcome.pageOk token1, rs1) =>
      if optTruthy token1 then page_loop config api fuel token1 rs1
      else some (rs1.all_results, rs1.st)

/-- Translation of `PlacesExtractor.search_with_retry` (lines 276-361).
The request parameters (`location`, `radius`, `place_type`) only shape the
remote call, which the oracle `api` abstracts; `api` is indexed by
`total_api_calls`. -/
def search_with_retry (config : Config) (api : ℕ → ApiOutcome) (fuel : ℕ)
    (location : ℚ × ℚ) (radius : ℤ) (place_type : Option String)
    (st : ExtractorState) : Option (List RawResult × ExtractorState) :=
  page_loop config api fuel none { st := st, all_results := [] }

/-- Backoff delays slept when every attempt fails: `n` delays starting at
`delay`, each double the previous. -/
def backoffSleeps (delay : ℚ) : ℕ → List ℚ
  | 0 => []
  | n + 1 => delay :: backoffSleeps (delay * 2) n

/-- Classifier for pagination-cooldown sleep events. -/
def isPagination : SleepEvent → Bool
  | SleepEvent.pagination _ => true
  | _ => false

/-- Delays produced by `backoffSleeps` grow strictly when started from a
positive delay. -/
theorem backoffSleeps_chain (n : ℕ) :
    ∀ delay : ℚ, 0 < delay →
      List.Chain' (· < ·) (backoffSleeps delay n) := by
  induction n with
  | zero =>
    intro delay _
    simp [backoffSleeps]
  | succ m ih =>
    intro delay hd
    rw [backoffSleeps, List.chain'_cons']
    refine ⟨?_, ih (delay * 2) (by linarith)⟩
    intro y hy
    cases m with
    | zero => simp [backoffSleeps] at hy
    | succ m1 =>
      rw [backoffSleeps] at hy
      simp only [List.head?_cons, Option.mem_def, Option.some.injEq] at hy
      subst hy
      linarith

/-- Behavior of the retry loop when every attempt raises: all `n` remaining
attempts are made, a backoff sleep separates consecutive attempts (no sleep
follows the last one), and the loop ends in the early `return`. -/
theorem retry_loop_all_raise (config : Config) (api : ℕ → ApiOutcome)
    (hapi : ∀ k, api k = ApiOutcome.raise) (token : Option String)
    (n : ℕ) (hn : 0 < n) :
    ∀ (delay : ℚ) (rs : RetryState),
      retry_loop config api token n delay rs =
        (RetryOutcome.earlyReturn,
          { st := { rs.st with
              total_api_calls := rs.st.total_api_calls + n
              log := rs.st.log ++
                List.replicate n LogEvent.apiErrorWarning ++
                [LogEvent.maxRetriesError]
              sleeps := rs.st.sleeps ++
                ((backoffSleeps delay (n - 1)).map SleepEvent.backoff) }
            all_results := rs.all_results }) := by
  induction n with
  | zero => omega
  | succ m ih =>
    intro delay rs
    simp only [retry_loop, hapi]
    cases m with
    | zero =>
      simp [backoffSleeps]
    | succ m1 =>
      rw [if_neg (Nat.succ_ne_zero m1)]
      rw [ih (Nat.succ_pos m1) (delay * 2)]
      simp [backoffSleeps, List.append_assoc, List.replicate_succ,
        Nat.add_assoc, Nat.add_left_comm, Nat.add_comm, Nat.succ_sub_one]

/-- C6: against an API that raises on every request, one executor search
makes exactly `MAX_RETRIES` attempts, sleeps strictly increasing doubling
backoff delays between consecutive attempts (starting from the initial
retry delay), and returns the empty accumulated result set without
raising; the collector state is untouched. -/
theorem search_with_retry_exhaustion (config : Config)
    (api : ℕ → ApiOutcome) (hapi : ∀ k, api k = ApiOutcome.raise)
    (fuel : ℕ) (hfuel : 0 < fuel) (hM : 0 < config.MAX_RETRIES)
    (hd : 0 < config.INITIAL_RETRY_DELAY_SECONDS)
    (location : ℚ × ℚ) (radius : ℤ) (place_type : Option String)
    (st : ExtractorState) :
    ∃ st1, search_with_retry config api fuel location radius place_type st =
        some ([], st1) ∧
      st1.total_api_calls = st.total_api_calls + config.MAX_RETRIES ∧
      st1.sleeps = st.sleeps ++
        ((backoffSleeps config.INITIAL_RETRY_DELAY_SECONDS
          (config.MAX_RETRIES - 1)).map SleepEvent.backoff) ∧
      List.Chain' (· < ·)
        (backoffSleeps config.INITIAL_RETRY_DELAY_SECONDS
          (config.MAX_RETRIES - 1)) ∧
      st1.places = st.places ∧ st1.seen_place_ids = st.seen_place_ids := by
  obtain ⟨f, rfl⟩ : ∃ f, fuel = f + 1 := ⟨fuel - 1, by omega⟩
  rw [search_with_retry]
  simp only [page_loop]
  rw [retry_loop_all_raise config api hapi none config.MAX_RETRIES hM]
  exact ⟨_, rfl, rfl, rfl,
    backoffSleeps_chain (config.MAX_RETRIES - 1)
      config.INITIAL_RETRY_DELAY_SECONDS hd, rfl, rfl⟩

/-- C6 witness: the default configuration (5 retries, 1 second initial
delay) against an always-raising API. -/
theorem search_with_retry_exhaustion_witness :
    ∃ st1, search_with_retry Config.default (fun _ => ApiOutcome.raise) 1
        (0, 0) 1000 none init_state = some ([], st1) ∧
      st1.total_api_calls = init_state.total_api_calls +
        Config.default.MAX_RETRIES ∧
      st1.sleeps = init_state.sleeps ++
        ((backoffSleeps Config.default.INITIAL_RETRY_DELAY_SECONDS
          (Config.default.MAX_RETRIES - 1)).map SleepEvent.backoff) ∧
      List.Chain' (· < ·)
        (backoffSleeps Config.default.INITIAL_RETRY_DELAY_SECONDS
          (Config.default.MAX_RETRIES - 1)) ∧
      st1.places = init_state.places ∧
      st1.seen_place_ids = init_state.seen_place_ids :=
  search_with_retry_exhaustion Config.default (fun _ => ApiOutcome.raise)
    (fun _ => rfl) 1 (by decide) (by decide)
    (by norm_num [Config.default]) (0, 0) 1000 none init_state

/-- C7: against an API that serves three pages, the third without a
continuation token, one executor search issues exactly three requests,
returns the concatenation of the three pages, sleeps the pagination
cooldown exactly twice (after pages 1 and 2, plus the inter-request delay)
and sleeps nothing after the final page. -/
theorem search_with_retry_pagination (config : Config)
    (api : ℕ → ApiOutcome) (st : ExtractorState) (location : ℚ × ℚ)
    (radius : ℤ) (place_type : Option String)
    (p1 p2 p3 : List RawResult) (t1 t2 : String)
    (h1 : api st.total_api_calls =
      ApiOutcome.respond ⟨some "OK", some p1, some t1⟩)
    (h2 : api (st.total_api_calls + 1) =
      ApiOutcome.respond ⟨some "OK", some p2, some t2⟩)
    (h3 : api (st.total_api_calls + 2) =
      ApiOutcome.respond ⟨some "OK", some p3, none⟩)
    (ht1 : t1 ≠ "") (ht2 : t2 ≠ "")
    (hM : 0 < config.MAX_RETRIES) (fuel : ℕ) (hfuel : 3 ≤ fuel) :
    search_with_retry config api fuel location radius place_type st =
      some (p1 ++ p2 ++ p3,
        { st with
            total_api_calls := st.total_api_calls + 3
            sleeps := st.sleeps ++
              [SleepEvent.pagination config.PAGINATION_DELAY_SECONDS,
               SleepEvent.rateLimit config.DELAY_BETWEEN_REQUESTS_SECONDS,
               SleepEvent.pagination config.PAGINATION_DELAY_SECONDS,
               SleepEvent.rateLimit
                 config.DELAY_BETWEEN_REQUESTS_SECONDS] }) ∧
    ([SleepEvent.pagination config.PAGINATION_DELAY_SECONDS,
      SleepEvent.rateLimit config.DELAY_BETWEEN_REQUESTS_SECONDS,
      SleepEvent.pagination config.PAGINATION_DELAY_SECONDS,
      SleepEvent.rateLimit config.DELAY_BETWEEN_REQUESTS_SECONDS].filter
        isPagination).length = 2 := by
  have hb1 : (t1 == "") = false := beq_eq_false_iff_ne.mpr ht1
  have hb2 : (t2 == "") = false := beq_eq_false_iff_ne.mpr ht2
  obtain ⟨f, rfl⟩ : ∃ f, fuel = f + 3 := ⟨fuel - 3, by omega⟩
  obtain ⟨m, hm⟩ : ∃ m, config.MAX_RETRIES = m + 1 :=
    ⟨config.MAX_RETRIES - 1, by omega⟩
  refine ⟨?_, rfl⟩
  rw [search_with_retry]
  simp [show f + 3 = f + 2 + 1 from rfl, show f + 2 = f + 1 + 1 from rfl,
    page_loop, retry_loop, hm, h1, h2, h3, optTruthy, hb1, hb2,
    List.append_assoc, Nat.add_assoc]

/-- C7 witness: a concrete three-page API starting from the fresh
extractor state. -/
theorem search_with_retry_pagination_witness :
    search_with_retry Config.default
      (fun k => if k = 0 then
          ApiOutcome.respond ⟨some "OK",
            some [⟨some "a", some "A", some [], none⟩], some "tok1"⟩
        else if k = 1 then
          ApiOutcome.respond ⟨some "OK",
            some [⟨some "b", some "B", some [], none⟩], some "tok2"⟩
        else
          ApiOutcome.respond ⟨some "OK",
            some [⟨some "c", some "C", some [], none⟩], none⟩) 3
      (0, 0) 1000 none init_state =
      some ([⟨some "a", some "A", some [], none⟩] ++
          [⟨some "b", some "B", some [], none⟩] ++
          [⟨some "c", some "C", some [], none⟩],
        { init_state with
            total_api_calls := init_state.total_api_calls + 3
            sleeps := init_state.sleeps ++
              [SleepEvent.pagination Config.default.PAGINATION_DELAY_SECONDS,
               SleepEvent.rateLimit
                 Config.default.DELAY_BETWEEN_REQUESTS_SECONDS,
               SleepEvent.pagination Config.default.PAGINATION_DELAY_SECONDS,
               SleepEvent.rateLimit
                 Config.default.DELAY_BETWEEN_REQUESTS_SECONDS] }) ∧
    ([SleepEvent.pagination Config.default.PAGINATION_DELAY_SECONDS,
      SleepEvent.rateLimit Config.default.DELAY_BETWEEN_REQUESTS_SECONDS,
      SleepEvent.pagination Config.default.PAGINATION_DELAY_SECONDS,
      SleepEvent.rateLimit
        Config.default.DELAY_BETWEEN_REQUESTS_SECONDS].filter
        isPagination).length = 2 :=
  search_with_retry_pagination Config.default _ init_state (0, 0) 1000 none
    [⟨some "a", some "A", some [], none⟩]
    [⟨some "b", some "B", some [], none⟩]
    [⟨some "c", some "C", some [], none⟩] "tok1" "tok2"
    rfl rfl rfl (by decide) (by decide) (by decide) 3 (by decide)

/-- C8 amended: a response that is returned with a non-success status is
only logged as a warning and then processed like a success (its results
are appended and, with no continuation token, the search ends after that
single request); no retry and no backoff sleep occurs.  Only a raised
transport exception drives the retry path. -/
theorem search_with_retry_bad_status (config : Config)
    (api : ℕ → ApiOutcome) (st : ExtractorState) (location : ℚ × ℚ)
    (radius : ℤ) (place_type : Option String) (status : Option String)
    (results : List RawResult)
    (hstatus1 : status ≠ some "OK") (hstatus2 : status ≠ some "ZERO_RESULTS")
    (h1 : api st.total_api_calls =
      ApiOutcome.respond ⟨status, some results, none⟩)
    (hM : 0 < config.MAX_RETRIES) (fuel : ℕ) (hfuel : 0 < fuel) :
    search_with_retry config api fuel location radius place_type st =
      some (results,
        { st with
            total_api_calls := st.total_api_calls + 1
            log := st.log ++ [LogEvent.apiStatusWarning status] }) := by
  obtain ⟨f, rfl⟩ : ∃ f, fuel = f + 1 := ⟨fuel - 1, by omega⟩
  obtain ⟨m, hm⟩ : ∃ m, config.MAX_RETRIES = m + 1 :=
    ⟨config.MAX_RETRIES - 1, by omega⟩
  rw [search_with_retry]
  simp [page_loop, retry_loop, hm, h1, optTruthy, hstatus1, hstatus2]

/-- C8 witness for the amended claim: a `REQUEST_DENIED` response against
the default configuration is processed in one request with only a
warning. -/
theorem search_with_retry_bad_status_witness :
    search_with_retry Config.default
      (fun _ => ApiOutcome.respond ⟨some "REQUEST_DENIED", some [], none⟩) 1
      (0, 0) 1000 none init_state =
      some ([],
        { init_state with
            total_api_calls := init_state.total_api_calls + 1
            log := init_state.log ++
              [LogEvent.apiStatusWarning (some "REQUEST_DENIED")] }) :=
  search_with_retry_bad_status Config.default
    (fun _ => ApiOutcome.respond ⟨some "REQUEST_DENIED", some [], none⟩)
    init_state (0, 0) 1000 none (some "REQUEST_DENIED") []
    (by decide) (by decide) rfl (by decide) 1 (by decide)

/-- C8 counterexample: the claim predicts that a non-success status (here
`REQUEST_DENIED`) is retried like a transport failure, up to
`MAX_RETRIES` (5) attempts with backoff sleeps; the code instead issues
exactly one request and sleeps no backoff at all. -/
theorem search_with_retry_bad_status_counterexample :
    ((search_with_retry Config.default
        (fun _ => ApiOutcome.respond ⟨some "OVER_QUERY_LIMIT", some [], none⟩)
        1 (0, 0) 1000 none init_state).map fun out =>
          (out.2.total_api_calls, out.2.sleeps)) = some (1, []) ∧
      (1 : ℕ) ≠ Config.default.MAX_RETRIES := by
  constructor
  · rfl
  · decide

/-- Value written by `save_checkpoint` (lines 490-494): the checkpoint
metadata, the list of seen ids (`list(self.seen_place_ids)`) and the list
of collected places (`self.places.values()` in insertion order). -/
structure CheckpointData where
  checkpoint : Checkpoint
  seen_place_ids : List String
  places : List Place
  deriving DecidableEq, Repr

/-- Translation of `PlacesExtractor.save_checkpoint` (lines 480-499); the
file write is modelled by returning the serialized value, and `now` stands
for `datetime.now().isoformat()`. -/
def save_checkpoint (st : ExtractorState) (now : String) : CheckpointData where
  checkpoint :=
    { last_completed_cell_index := st.current_cell_index
      total_unique_places := st.places.length
      total_api_calls := st.total_api_calls
      total_duplicates_skipped := st.total_duplicates_skipped
      timestamp := now }
  seen_place_ids := st.seen_place_ids
  places := st.places.map Prod.snd

/-- Parsed `checkpoint` sub-dictionary of a checkpoint file; each key may
be absent (a missing key raises `KeyError` in the source). -/
structure RawCheckpoint where
  last_completed_cell_index : Option ℤ
  total_unique_places : Option ℕ
  total_api_calls : Option ℕ
  total_duplicates_skipped : Option ℕ
  timestamp : Option String
  deriving DecidableEq, Repr

/-- Parsed checkpoint file.  Each top-level key may be absent, and each
entry of `places` is `some p` when the dictionary is a well-formed set of
keyword arguments for the Place dataclass and `none` when `Place(**d)`
would raise. -/
structure RawCheckpointData where
  checkpoint : Option RawCheckpoint
  seen_place_ids : Option (List String)
  places : Option (List (Option Place))
  deriving DecidableEq, Repr

/-- Serialization of a well-formed checkpoint value into the parsed-file
model: writing `save_checkpoint`'s output as JSON and parsing it back
yields every key present. -/
def CheckpointData.toRaw (data : CheckpointData) : RawCheckpointData where
  checkpoint := some
    { last_completed_cell_index := some data.checkpoint.last_completed_cell_index
      total_unique_places := some data.checkpoint.total_unique_places
      total_api_calls := some data.checkpoint.total_api_calls
      total_duplicates_skipped := some data.checkpoint.total_duplicates_skipped
      timestamp := some data.checkpoint.timestamp }
  seen_place_ids := some data.seen_place_ids
  places := some (data.places.map some)

/-- Restore loop of `load_checkpoint` (lines 518-520): each place
dictionary is turned into a Place and assigned into `self.places`; a
malformed dictionary raises out of the loop, leaving the insertions made
so far in place (`Except.error` carries that partially-mutated state). -/
def load_places_loop :
    List (Option Place) → ExtractorState → Except ExtractorState ExtractorState
  | [], st => Except.ok st
  | none :: _, st => Except.error st
  | some place :: rest, st =>
    load_places_loop rest
      { st with places := dictInsert st.places place.place_id place }

/-- Translation of `PlacesExtractor.load_checkpoint` (lines 501-535).  The
argument `file` is `none` when the checkpoint file does not exist,
`some none` when `json.load` raises, and `some (some data)` when the file
parses.  The `try` block mutates `self` field by field in source order, so
a failure partway through leaves the earlier assignments in place; every
failure is caught, logged (line 534) and turned into `None`. -/
def load_checkpoint (file : Option (Option RawCheckpointData))
    (st : ExtractorState) : Option ℤ × ExtractorState :=
  match file with
  | none => (none, st)
  | some none =>
    (none, { st with log := st.log ++ [LogEvent.checkpointLoadError] })
  | some (some data) =>
    match data.checkpoint with
    | none =>
      (none, { st with log := st.log ++ [LogEvent.checkpointLoadError] })
    | some cp =>
      match data.seen_place_ids with
      | none =>
        (none, { st with log := st.log ++ [LogEvent.checkpointLoadError] })
      | some seen =>
        let st1 : ExtractorState :=
          { st with seen_place_ids := seen.dedup }
        match data.places with
        | none =>
          (none, { st1 with log := st1.log ++ [LogEvent.checkpointLoadError] })
        | some rawPlaces =>
          match load_places_loop rawPlaces st1 with
          | Except.error stErr =>
            (none,
              { stErr with log := stErr.log ++ [LogEvent.checkpointLoadError] })
          | Except.ok st2 =>
            match cp.total_api_calls with
            | none =>
              (none,
                { st2 with log := st2.log ++ [LogEvent.checkpointLoadError] })
            | some calls =>
              let st3 : ExtractorState :=
                { st2 with total_api_calls := calls }
              match cp.total_duplicates_skipped with
              | none =>
                (none,
                  { st3 with log := st3.log ++ [LogEvent.checkpointLoadError] })
              | some dups =>
                let st4 : ExtractorState :=
                  { st3 with total_duplicates_skipped := dups }
                match cp.last_completed_cell_index with
                | none =>
                  (none,
                    { st4 with log := st4.log ++ [LogEvent.checkpointLoadError] })
                | some last =>
                  match cp.timestamp with
                  | none =>
                    (none,
                      { st4 with log := st4.log ++ [LogEvent.checkpointLoadError] })
                  | some _ => (some (last + 1), st4)

/-- Replaying the saved place list (all entries well formed, keys distinct
and matching the stored `place_id`) rebuilds exactly the saved dictionary
on top of the accumulator. -/
theorem load_places_loop_rebuild (l : List (String × Place)) :
    ∀ acc : ExtractorState,
      (∀ p ∈ l, p.2.place_id = p.1) →
      (∀ p ∈ l, p.1 ∉ acc.places.map Prod.fst) →
      (l.map Prod.fst).Nodup →
      load_places_loop ((l.map Prod.snd).map some) acc =
        Except.ok { acc with places := acc.places ++ l } := by
  induction l with
  | nil =>
    intro acc _ _ _
    simp [load_places_loop]
  | cons hd tl ih =>
    intro acc hid hdisj hnd
    rw [List.map_cons, List.nodup_cons] at hnd
    have hhd : hd.2.place_id = hd.1 := hid hd (List.mem_cons_self hd tl)
    simp only [List.map_cons, load_places_loop]
    rw [hhd, dictInsert_not_mem _ _ _ (hdisj hd (List.mem_cons_self hd tl))]
    have hdisj2 : ∀ p ∈ tl, p.1 ∉
        ((acc.places ++ [(hd.1, hd.2)]).map Prod.fst) := by
      intro p hp
      simp only [List.map_append, List.mem_append]
      rintro (hmem | hmem)
      · exact hdisj p (List.mem_cons_of_mem hd hp) hmem
      · simp only [List.map_cons, List.map_nil,
          List.mem_singleton] at hmem
        exact hnd.1 (hmem ▸ List.mem_map_of_mem Prod.fst hp)
    rw [ih { acc with places := acc.places ++ [(hd.1, hd.2)] }
      (fun p hp => hid p (List.mem_cons_of_mem hd hp)) hdisj2 hnd.2]
    simp [List.append_assoc]

/-- C2: saving a checkpoint and loading the written file into a fresh
extractor restores the same seen-id set, the same Place dictionary and the
same counters, and resumes at the saved index plus one. -/
theorem checkpoint_round_trip (st : ExtractorState) (now : String)
    (hseen : st.seen_place_ids.Nodup)
    (hnodup : (st.places.map Prod.fst).Nodup)
    (hkeys : ∀ p ∈ st.places, p.2.place_id = p.1) :
    load_checkpoint (some (some (save_checkpoint st now).toRaw)) init_state =
      (some (st.current_cell_index + 1),
        { init_state with
            seen_place_ids := st.seen_place_ids
            places := st.places
            total_api_calls := st.total_api_calls
            total_duplicates_skipped := st.total_duplicates_skipped }) := by
  simp only [save_checkpoint, CheckpointData.toRaw, load_checkpoint]
  rw [load_places_loop_rebuild st.places _ hkeys (by simp [init_state])
    hnodup]
  simp [init_state, List.dedup_eq_self.mpr hseen]

/-- C2 witness: a concrete two-place extractor state round trips. -/
theorem checkpoint_round_trip_witness :
    load_checkpoint (some (some (save_checkpoint
        { seen_place_ids := ["a", "b"]
          places := [("a", ⟨"a", "Alpha", ["cafe"], 1/2, 3/2⟩),
                     ("b", ⟨"b", "Beta", [], 0, 0⟩)]
          total_api_calls := 9
          total_duplicates_skipped := 2
          current_cell_index := 7
          log := []
          sleeps := [] } "2026-01-01T00:00:00").toRaw)) init_state =
      (some 8,
        { init_state with
            seen_place_ids := ["a", "b"]
            places := [("a", ⟨"a", "Alpha", ["cafe"], 1/2, 3/2⟩),
                       ("b", ⟨"b", "Beta", [], 0, 0⟩)]
            total_api_calls := 9
            total_duplicates_skipped := 2 }) :=
  checkpoint_round_trip
    { seen_place_ids := ["a", "b"]
      places := [("a", ⟨"a", "Alpha", ["cafe"], 1/2, 3/2⟩),
                 ("b", ⟨"b", "Beta", [], 0, 0⟩)]
      total_api_calls := 9
      total_duplicates_skipped := 2
      current_cell_index := 7
      log := []
      sleeps := [] } "2026-01-01T00:00:00"
    (by decide) (by decide) (by decide)

/-- Checkpoint file used to exhibit the partial-restore behavior of
`load_checkpoint`: valid JSON with `checkpoint` and `seen_place_ids` keys
but no `places` key. -/
def fileMissingPlacesKey : RawCheckpointData where
  checkpoint := some
    { last_completed_cell_index := some 3
      total_unique_places := some 1
      total_api_calls := some 9
      total_duplicates_skipped := some 2
      timestamp := some "t" }
  seen_place_ids := some ["x"]
  places := none

/-- C10 counterexample: loading a parseable checkpoint file that lacks the
`places` key returns "no checkpoint", but the collector state is not left
unchanged — `seen_place_ids` was already overwritten (line 516) before the
failing key access, so a fresh extractor ends up with a polluted dedup
set. -/
theorem load_checkpoint_partial_mutation_counterexample :
    (load_checkpoint (some (some fileMissingPlacesKey)) init_state).1 =
      none ∧
    (load_checkpoint (some (some fileMissingPlacesKey))
        init_state).2.seen_place_ids = ["x"] ∧
    ["x"] ≠ init_state.seen_place_ids := by
  exact ⟨rfl, rfl, by decide⟩

/-- C10 amended: an absent checkpoint file yields "no checkpoint" and
leaves the state untouched; a file that fails JSON parsing outright yields
"no checkpoint", logs the failure and leaves the collector state
unchanged; both paths are total (nothing is raised).  When parsing fails
after partial restoration the resume index is still `none` (extraction
restarts from cell zero) but already-restored collector fields may keep
their new values. -/
theorem load_checkpoint_failure_handling (st : ExtractorState) :
    load_checkpoint none st = (none, st) ∧
    load_checkpoint (some none) st =
      (none, { st with log := st.log ++ [LogEvent.checkpointLoadError] }) :=
  ⟨rfl, rfl⟩

/-- Search-type sequence of `search_grid_cell` (lines 409-413): every
configured place type, plus the unfiltered search when enabled. -/
def searchTypes (config : Config) : List (Option String) :=
  (config.PLACE_TYPES.map some) ++
    (if config.INCLUDE_GENERIC_SEARCH then [none] else [])

/-- Loop body of `search_grid_cell` (lines 415-435): for each search type
run a paginated search, ingest every result, then sleep the inter-request
delay (line 435). -/
def run_cell_types (config : Config) (api : ℕ → ApiOutcome) (fuel : ℕ)
    (location : ℚ × ℚ) (radius : ℤ) :
    List (Option String) → ExtractorState → Option ExtractorState
  | [], st => some st
  | ty :: rest, st =>
    match search_with_retry config api fuel location radius ty st with
    | none => none
    | some (results, st1) =>
      let st2 := results.foldl process_result st1
      run_cell_types config api fuel location radius rest
        { st2 with sleeps := st2.sleeps ++
            [SleepEvent.rateLimit config.DELAY_BETWEEN_REQUESTS_SECONDS] }

/-- Translation of `PlacesExtractor.search_grid_cell` (lines 401-435). -/
def search_grid_cell (config : Config) (api : ℕ → ApiOutcome) (fuel : ℕ)
    (cell : GridCell) (st : ExtractorState) : Option ExtractorState :=
  run_cell_types config api fuel (cell.center_lat, cell.center_lng)
    config.SEARCH_RADIUS_METERS (searchTypes config) st

/-- Loop of `extract_all_places` (lines 449-473) over the remaining cell
indices.  Each iteration sets `current_cell_index` to the cell being
processed (line 451) before searching it, then saves a periodic checkpoint
when the interval divides the one-based index (lines 465-466); saved
checkpoint files are accumulated in `writes`, and `clock` supplies the
timestamp of each write. -/
def extract_cells (config : Config) (api : ℕ → ApiOutcome) (fuel : ℕ)
    (clock : ℕ → String) (grid : List GridCell) :
    List ℕ → ExtractorState × List CheckpointData →
      Option (ExtractorState × List CheckpointData)
  | [], acc => some acc
  | idx :: rest, (st, writes) =>
    match grid[idx]? with
    | none => none
    | some cell =>
      match search_grid_cell config api fuel cell
          { st with current_cell_index := (idx : ℤ) } with
      | none => none
      | some st1 =>
        let writes1 :=
          if config.ENABLE_CHECKPOINTING ∧
              (idx + 1) % config.CHECKPOINT_INTERVAL = 0 then
            writes ++ [save_checkpoint st1 (clock writes.length)]
          else writes
        extract_cells config api fuel clock grid rest (st1, writes1)

/-- Translation of `PlacesExtractor.extract_all_places` (lines 437-478):
process every cell from `start_from` to the end of the grid. -/
def extract_all_places (config : Config) (api : ℕ → ApiOutcome) (fuel : ℕ)
    (clock : ℕ → String) (grid : List GridCell) (start_from : ℕ)
    (st : ExtractorState) :
    Option (ExtractorState × List CheckpointData) :=
  extract_cells config api fuel clock grid
    (List.range' start_from (grid.length - start_from)) (st, [])

/-- Run stopped while cell `i` is being processed, as in `main`'s
`KeyboardInterrupt` / unhandled-exception handlers (lines 610-621): cells
`start_from .. i - 1` complete, `current_cell_index` has been set to `i`
(line 451) but cell `i`'s searches have not completed, and the handler
calls `save_checkpoint` before exiting with a non-zero status.  Returns
the state at the interrupt together with the checkpoint written by the
handler. -/
def extract_interrupted (config : Config) (api : ℕ → ApiOutcome)
    (fuel : ℕ) (clock : ℕ → String) (grid : List GridCell)
    (start_from i : ℕ) (st : ExtractorState) (now : String) :
    Option (ExtractorState × CheckpointData) :=
  match extract_cells config api fuel clock grid
      (List.range' start_from (i - start_from)) (st, []) with
  | none => none
  | some (st1, _) =>
    some ({ st1 with current_cell_index := (i : ℤ) },
      save_checkpoint { st1 with current_cell_index := (i : ℤ) } now)

/-- Two-cell, one-search-type configuration used to exhibit the
interrupted-checkpoint behavior. -/
def cfgTwoCells : Config :=
  { Config.default with
      BBOX_NORTH := 1
      BBOX_SOUTH := 0
      BBOX_EAST := 2
      BBOX_WEST := 0
      GRID_LAT_DIVISIONS := 1
      GRID_LNG_DIVISIONS := 2
      PLACE_TYPES := ["restaurant"]
      INCLUDE_GENERIC_SEARCH := false }

/-- Grid of `cfgTwoCells`: two cells in one row. -/
def gridTwoCells : List GridCell :=
  (generate_grid cfgTwoCells).toOption.getD []

/-- API oracle for the two-cell scenario: the first request (made from
cell 0) finds place `A`, the second (made from cell 1) finds place `B`,
with no pagination. -/
def apiTwoCells : ℕ → ApiOutcome := fun k =>
  if k = 0 then
    ApiOutcome.respond
      ⟨some "OK", some [⟨some "A", some "Alpha", some [], none⟩], none⟩
  else
    ApiOutcome.respond
      ⟨some "OK", some [⟨some "B", some "Beta", some [], none⟩], none⟩

/-- Fixed wall clock for the scenario runs. -/
def clockConst : ℕ → String := fun _ => "2026-01-01T00:00:00"

/-- C1 failing input: with two cells and one search each, a run
interrupted while cell 1 is being processed (cell 0 complete, cell 1's
search not yet run) saves `last_completed_cell_index = 1` — the
in-progress cell, not the highest fully-processed one (0) — and the state
at the interrupt holds only place `A`.  Resuming by loading that
checkpoint starts at cell 2, so cell 1 is never searched and the resumed
run ends with only `A`, while the uninterrupted run collects `A` and `B`:
resume is not equivalent to never stopping. -/
theorem interrupted_checkpoint_skips_cell :
    ((extract_interrupted cfgTwoCells apiTwoCells 2 clockConst gridTwoCells
        0 1 init_state "t").map
          fun out => out.2.checkpoint.last_completed_cell_index) = some 1 ∧
    ((extract_interrupted cfgTwoCells apiTwoCells 2 clockConst gridTwoCells
        0 1 init_state "t").map
          fun out => out.1.places.map Prod.fst) = some ["A"] ∧
    ((extract_all_places cfgTwoCells apiTwoCells 2 clockConst gridTwoCells
        0 init_state).map
          fun out => out.1.places.map Prod.fst) = some ["A", "B"] ∧
    ((extract_interrupted cfgTwoCells apiTwoCells 2 clockConst gridTwoCells
        0 1 init_state "t").bind fun out =>
      match load_checkpoint (some (some out.2.toRaw)) init_state with
      | (some resume, stResumed) =>
        (extract_all_places cfgTwoCells apiTwoCells 2 clockConst
            gridTwoCells resume.toNat stResumed).map
          fun o => o.1.places.map Prod.fst
      | (none, _) => none) = some ["A"] := by
  refine ⟨rfl, rfl, rfl, rfl⟩
